import Mathlib

/-!
Shallow embedding of the CourtServe hearing-list scraper
(`scraper.js`, first implementation: `normalizeText`, `identifyTemplate`,
`extractDataTemplate4` / `4a` / `5` / `7`, `scrapeDataFromHtml`) together
with proofs about the embedded program.

Strings are modelled as Lean `String`; the character-level algorithms work
on `List Char`.  JavaScript regular-expression tests used by the scraper
are embedded as explicit, executable matchers whose doc comments name the
regex they model.  Whitespace (`\s`) is modelled by the ASCII whitespace
characters, which is what the scraped documents contain.
-/

/-! ## Character and list utilities -/

/-- Characters treated as whitespace (the model of `\s` and of what
`String.prototype.trim` removes on this data). -/
def isWsChar (c : Char) : Bool :=
  c == ' ' || c == '\t' || c == '\n' || c == '\r'

/-- Model of `text.replace(/\s+/g, ' ')`: every maximal whitespace run
becomes a single space.  The boolean records whether the previous character
belonged to a whitespace run. -/
def collapseWSAux : List Char → Bool → List Char
  | [], _ => []
  | c :: rest, prevWs =>
    if isWsChar c then
      if prevWs then collapseWSAux rest true else ' ' :: collapseWSAux rest true
    else c :: collapseWSAux rest false

/-- Model of `String.prototype.trim`. -/
def trimChars (l : List Char) : List Char :=
  ((l.dropWhile isWsChar).reverse.dropWhile isWsChar).reverse

/-- `normalizeText` from `scraper.js`:
`text.replace(/\s+/g, ' ').trim().toLowerCase()`. -/
def normalizeText (s : String) : String :=
  String.mk ((trimChars (collapseWSAux s.data false)).map Char.toLower)

/-- The cleanup applied to every cell text before use:
`$(cell).text().trim().replace(/\s+/g, ' ')`. -/
def tidyText (s : String) : String :=
  String.mk (collapseWSAux (trimChars s.data) false)

/-- `s.trim()` on a `String`. -/
def jsTrim (s : String) : String :=
  String.mk (trimChars s.data)

/-- `s.toLowerCase()` (ASCII model). -/
def lowerStr (s : String) : String :=
  String.mk (s.data.map Char.toLower)

/-- JavaScript `a || b` for strings: the empty string is falsy. -/
def jsOr (a b : String) : String :=
  if a == "" then b else a

/-- `text.replace(/\|/g, '')`. -/
def stripPipesStr (s : String) : String :=
  String.mk (s.data.filter (fun c => c != '|'))

/-- If `pat` matches at the head of `s`, return the remainder of `s`. -/
def matchPre : List Char → List Char → Option (List Char)
  | [], s => some s
  | _ :: _, [] => none
  | p :: ps, c :: cs => if p == c then matchPre ps cs else none

/-- Index of the first occurrence of `pat` in `s` (substring search). -/
def findSub : List Char → List Char → Option Nat
  | s, pat =>
    match s with
    | [] => if pat.isEmpty then some 0 else none
    | _ :: rest =>
      if (matchPre pat s).isSome then some 0
      else (findSub rest pat).map (· + 1)

/-- Whether `pat` occurs in `s` as a plain substring (`String.includes`,
or a regex with no metacharacters, after any case folding done by the
caller). -/
def containsSub (s pat : String) : Bool :=
  (findSub s.data pat.data).isSome

/-- One step of a whitespace-separated token pattern: `true` means the gap
before this part is `\s+` (at least one whitespace character), `false`
means `\s*`.  Every part starts with a non-whitespace character, so the
greedy gap consumption below is exact. -/
def matchSeqAt : List Char → List (Bool × List Char) → Bool
  | _, [] => true
  | s, (reqWs, p) :: rest =>
    let t := s.dropWhile isWsChar
    if reqWs && (s.length == t.length) then false
    else
      match matchPre p t with
      | some r => matchSeqAt r rest
      | none => false

/-- Scan every position of `s` for the token sequence `pat`. -/
def containsSeqAux : List Char → List (Bool × List Char) → Bool
  | [], pat => matchSeqAt [] pat
  | s@(_ :: rest), pat => matchSeqAt s pat || containsSeqAux rest pat

/-- Model of `/<p0>\s[*+]<p1>.../i.test s` for the literal token patterns the
scraper uses: the caller lower-cases `s` and supplies lower-case parts. -/
def containsSeq (s : String) (pat : List (Bool × List Char)) : Bool :=
  containsSeqAux s.data pat

/-- A pattern part preceded by `\s*`. -/
def pS (s : String) : Bool × List Char := (false, s.data)

/-- A pattern part preceded by `\s+`. -/
def pP (s : String) : Bool × List Char := (true, s.data)

/-! ## `parseInt` and colspan handling -/

def isDigitChar (c : Char) : Bool := '0' ≤ c && c ≤ '9'

def isHexDigitChar (c : Char) : Bool :=
  isDigitChar c || ('a' ≤ c.toLower && c.toLower ≤ 'f')

def digitVal (c : Char) : Nat := c.toNat - '0'.toNat

def hexDigitVal (c : Char) : Nat :=
  if isDigitChar c then digitVal c else c.toLower.toNat - 'a'.toNat + 10

def foldDigits (base : Nat) (f : Char → Nat) (l : List Char) : Nat :=
  l.foldl (fun acc c => acc * base + f c) 0

/-- Decimal part of `parseInt`: leading digits, `none` when there are none
(JavaScript `NaN`); trailing non-digits are ignored. -/
def parseIntDec (l : List Char) : Option Nat :=
  let ds := l.takeWhile isDigitChar
  if ds.isEmpty then none else some (foldDigits 10 digitVal ds)

/-- Unsigned part of `parseInt` without an explicit radix: a `0x`/`0X`
prefix switches to hexadecimal, otherwise decimal. -/
def parseIntMag : List Char → Option Nat
  | '0' :: c :: r =>
    if c == 'x' || c == 'X' then
      let ds := r.takeWhile isHexDigitChar
      if ds.isEmpty then none else some (foldDigits 16 hexDigitVal ds)
    else parseIntDec ('0' :: c :: r)
  | l => parseIntDec l

/-- Model of JavaScript `parseInt(s)` (no radix argument): skip leading
whitespace, optional sign, then digits; `none` models `NaN`. -/
def jsParseInt (s : String) : Option Int :=
  match s.data.dropWhile isWsChar with
  | '-' :: r => (parseIntMag r).map (fun n => -(n : Int))
  | '+' :: r => (parseIntMag r).map (fun n => (n : Int))
  | r => (parseIntMag r).map (fun n => (n : Int))

/-- `parseInt($(cell).attr('colspan')) || 1`: a missing attribute gives
`parseInt(undefined) = NaN`, and both `NaN` and `0` are falsy. -/
def jsColspan (attr : Option String) : Int :=
  match attr with
  | none => 1
  | some s =>
    match jsParseInt s with
    | none => 1
    | some n => if n == 0 then 1 else n

/-! ## Date handling -/

/-- `part.replace(/(\d+)(st|nd|rd|th)/i, '$1')`: drop the first ordinal
suffix that immediately follows a digit. -/
def ordSuffixSplit : List Char → Option (List Char)
  | a :: b :: rest =>
    let p := (a.toLower, b.toLower)
    if p == ('s', 't') || p == ('n', 'd') || p == ('r', 'd') || p == ('t', 'h') then
      some rest
    else none
  | _ => none

def stripOrdinal : List Char → List Char
  | [] => []
  | c :: rest =>
    if isDigitChar c then
      match ordSuffixSplit rest with
      | some rem => c :: rem
      | none => c :: stripOrdinal rest
    else c :: stripOrdinal rest

def isWordChar (c : Char) : Bool :=
  isDigitChar c || ('a' ≤ c.toLower && c.toLower ≤ 'z') || c == '_'

/-- Apply `f` to every maximal `\w+` run of the input, keeping the other
characters; used to model whole-word (`\b…\b`) replacement.  `f` must map
the empty run to itself. -/
def mapWordRunsAux (f : List Char → List Char) : List Char → List Char → List Char
  | curr, [] => f curr.reverse
  | curr, c :: rest =>
    if isWordChar c then mapWordRunsAux f (c :: curr) rest
    else f curr.reverse ++ c :: mapWordRunsAux f [] rest

def mapWordRuns (f : List Char → List Char) (l : List Char) : List Char :=
  mapWordRunsAux f [] l

def ciEqChars (a b : List Char) : Bool :=
  a.map Char.toLower == b.map Char.toLower

/-- The Welsh month table of `formatCourtDate`. -/
def welshToEnglishMonths : List (String × String) :=
  [("Ionawr", "January"), ("Chwefror", "February"), ("Mawrth", "March"),
   ("Ebrill", "April"), ("Mai", "May"), ("Mehefin", "June"),
   ("Gorffennaf", "July"), ("Awst", "August"), ("Medi", "September"),
   ("Hydref", "October"), ("Tachwedd", "November"), ("Rhagfyr", "December")]

/-- `part.replace(new RegExp('\\b' + welsh + '\\b', 'gi'), english)` for
each table entry in order: a maximal word run equal (case-insensitively)
to the Welsh name is replaced by the English one. -/
def welshReplace (l : List Char) : List Char :=
  welshToEnglishMonths.foldl
    (fun acc (we : String × String) =>
      mapWordRuns (fun run => if ciEqChars run we.1.data then we.2.data else run) acc)
    l

def monthTable : List (String × Nat) :=
  [("january", 1), ("february", 2), ("march", 3), ("april", 4),
   ("may", 5), ("june", 6), ("july", 7), ("august", 8),
   ("september", 9), ("october", 10), ("november", 11), ("december", 12)]

def weekdayTable : List String :=
  ["sunday", "monday", "tuesday", "wednesday", "thursday", "friday", "saturday"]

/-- A word token matches a calendar keyword when it is at least three
characters long and shares its first three characters with the keyword
(the V8 legacy parser's keyword lookup). -/
def kwMatches (w : List Char) (name : String) : Bool :=
  w.length ≥ 3 && (w.map Char.toLower).take 3 == name.data.take 3

def monthOfWord (w : List Char) : Option Nat :=
  (monthTable.find? (fun mn => kwMatches w mn.1)).map (·.2)

def isWeekdayWord (w : List Char) : Bool :=
  weekdayTable.any (fun d => kwMatches w d)

inductive DTok where
  | word (w : List Char)
  | num (n : Nat)

inductive RunK where
  | blank
  | alpha
  | digit

def isAlphaChar (c : Char) : Bool := 'a' ≤ c.toLower && c.toLower ≤ 'z'

def mkTok : RunK → List Char → List DTok
  | RunK.alpha, cur => [DTok.word cur.reverse]
  | RunK.digit, cur => [DTok.num (foldDigits 10 digitVal cur.reverse)]
  | RunK.blank, _ => []

/-- Tokenize a date string into word and number tokens; whitespace and
commas separate tokens, any other character makes the date invalid. -/
def dateToksAux : List Char → RunK → List Char → Option (List DTok)
  | [], k, cur => some (mkTok k cur)
  | c :: rest, k, cur =>
    if isAlphaChar c then
      match k with
      | RunK.alpha => dateToksAux rest RunK.alpha (c :: cur)
      | _ => (dateToksAux rest RunK.alpha [c]).map (fun ts => mkTok k cur ++ ts)
    else if isDigitChar c then
      match k with
      | RunK.digit => dateToksAux rest RunK.digit (c :: cur)
      | _ => (dateToksAux rest RunK.digit [c]).map (fun ts => mkTok k cur ++ ts)
    else if isWsChar c || c == ',' then
      (dateToksAux rest RunK.blank []).map (fun ts => mkTok k cur ++ ts)
    else none

def isLeapYear (y : Nat) : Bool :=
  (y % 4 == 0 && y % 100 != 0) || y % 400 == 0

def daysInMonth (m y : Nat) : Nat :=
  if m == 2 then (if isLeapYear y then 29 else 28)
  else if m == 4 || m == 6 || m == 9 || m == 11 then 30
  else 31

/-- Fold the tokens into (day, month, year) components: weekday words are
ignored, a word must otherwise name a month, a number at most 31 fills the
day first, any other number fills the year. -/
def parseDateToks : List DTok → Option Nat → Option Nat → Option Nat →
    Option (Nat × Nat × Nat)
  | [], d?, m?, y? =>
    match d?, m?, y? with
    | some d, some m, some y =>
      let y := if y < 100 then 1900 + y else y
      if 1 ≤ d && d ≤ daysInMonth m y then some (d, m, y) else none
    | _, _, _ => none
  | DTok.word w :: rest, d?, m?, y? =>
    if isWeekdayWord w then parseDateToks rest d? m? y?
    else
      match monthOfWord w with
      | some m => if m?.isSome then none else parseDateToks rest d? (some m) y?
      | none => none
  | DTok.num n :: rest, d?, m?, y? =>
    if d?.isNone && 1 ≤ n && n ≤ 31 then parseDateToks rest (some n) m? y?
    else if y?.isNone then parseDateToks rest d? m? (some n)
    else none

/-- Model of `new Date(s)` followed by `getDate` / `getMonth() + 1` /
`getFullYear`, for the "day, month-name, year in any order" strings this
scraper feeds it (the V8 legacy parser); `none` models an invalid date.
ISO forms, slash forms and out-of-range components are not produced by the
scraper and are treated as invalid here. -/
def jsNewDateChars (l : List Char) : Option (Nat × Nat × Nat) :=
  match dateToksAux l RunK.blank [] with
  | none => none
  | some toks => parseDateToks toks none none none

def pad2 (n : Nat) : String :=
  if n < 10 then "0" ++ toString n else toString n

def formatDMY (d m y : Nat) : String :=
  pad2 d ++ "/" ++ pad2 m ++ "/" ++ toString y

/-- Split at every comma, JavaScript `s.split(',')`. -/
def splitCommaAux : List Char → List Char → List (List Char)
  | acc, [] => [acc.reverse]
  | acc, c :: rest =>
    if c == ',' then acc.reverse :: splitCommaAux [] rest
    else splitCommaAux (c :: acc) rest

def splitComma (l : List Char) : List (List Char) :=
  splitCommaAux [] l

/-- The comma branch of the `formatCourtDate` shared by templates 4, 4a
and 7: try each comma-separated part in order (trim, Welsh month
translation, ordinal strip, `new Date`); the first valid date wins. -/
def tryDateParts : List (List Char) → String
  | [] => ""
  | p :: rest =>
    match jsNewDateChars (stripOrdinal (welshReplace (trimChars p))) with
    | some (d, m, y) => formatDMY d m y
    | none => tryDateParts rest

/-- `formatCourtDate` as defined inside `extractDataTemplate4`,
`extractDataTemplate4a` and `extractDataTemplate7`: only strings
containing a comma are ever parsed; on failure the function logs and
returns the empty string. -/
def formatCourtDateT4 (s : String) : String :=
  if s.data.contains ',' then tryDateParts (splitComma s.data) else ""

/-- `formatCourtDate` as defined inside `extractDataTemplate5`: the part
after the first comma is the candidate (falling back to the whole trimmed
string when that part is empty, since `parts[1] ? … : …` treats the empty
string as falsy); if it does not parse, part 3 (when present and
non-empty) is tried without Welsh translation; a comma-free string is
parsed whole after ordinal stripping. -/
def formatCourtDateT5 (s : String) : String :=
  let l := s.data
  if l.contains ',' then
    let parts := splitComma l
    let candidate :=
      match parts.get? 1 with
      | some p => if p.isEmpty then trimChars l else trimChars p
      | none => trimChars l
    let candidate := stripOrdinal (welshReplace candidate)
    let date :=
      match jsNewDateChars candidate with
      | some v => some v
      | none =>
        match parts.get? 3 with
        | some p =>
          if p.isEmpty then none
          else jsNewDateChars (stripOrdinal (trimChars p))
        | none => none
    match date with
    | some (d, m, y) => formatDMY d m y
    | none => ""
  else
    match jsNewDateChars (stripOrdinal l) with
    | some (d, m, y) => formatDMY d m y
    | none => ""

/-! ## Court-name extraction and party splitting -/

/-- Case-insensitive substring search returning the index in the original
string (`Char.toLower` preserves length). -/
def findSubCI (s pat : List Char) : Option Nat :=
  findSub (s.map Char.toLower) (pat.map Char.toLower)

/-- `titlename.match(/CourtServe:\s*(.*?)\s*County Court/i)`, returning
`match[1].trim()` (the lazy group plus the surrounding `\s*` amount to
trimming the text between the two anchors); `none` models a null match.
The model assumes the title holds no line terminator (`.` in the regex
would not cross one; document titles are single lines). -/
def extractCourtLocation (titlename : String) : Option String :=
  match findSubCI titlename.data "courtserve:".data with
  | none => none
  | some i =>
    let after := titlename.data.drop (i + "courtserve:".length)
    match findSubCI after "county court".data with
    | none => none
    | some j => some (String.mk (trimChars (after.take j)))

/-- The `'Court Name': courtName || ''` value, where inside every
extractor `courtName` has just been reassigned to
`extractCourtLocation(titlename)`. -/
def courtFromTitle (titlename : String) : String :=
  match extractCourtLocation titlename with
  | some s => jsOr s ""
  | none => ""

/-- If a `/\s+(v|vs)\s+/i` separator starts at the head of `l`, return its
length.  The alternation tries `v` before `vs`; since a digit or letter
never satisfies `\s`, the greedy whitespace runs need no backtracking. -/
def sepAAt (l : List Char) : Option Nat :=
  let ws1 := l.takeWhile isWsChar
  if ws1.isEmpty then none
  else
    match l.drop ws1.length with
    | c :: rest =>
      if c.toLower == 'v' then
        let ws2 := rest.takeWhile isWsChar
        if !ws2.isEmpty then some (ws1.length + 1 + ws2.length)
        else
          match rest with
          | s2 :: rest2 =>
            if s2.toLower == 's' then
              let ws3 := rest2.takeWhile isWsChar
              if !ws3.isEmpty then some (ws1.length + 2 + ws3.length) else none
            else none
          | [] => none
      else none
    | [] => none

/-- The `-vs-` arm of `/\s+(-v-|-vs-)\s+/i`, given the characters after
the leading `-v`. -/
def sepBVs (w : Nat) (rest : List Char) : Option Nat :=
  match rest with
  | s2 :: '-' :: rest3 =>
    if s2.toLower == 's' then
      let ws3 := rest3.takeWhile isWsChar
      if !ws3.isEmpty then some (w + 4 + ws3.length) else none
    else none
  | _ => none

/-- If a `/\s+(-v-|-vs-)\s+/i` separator starts at the head of `l`,
return its length. -/
def sepBAt (l : List Char) : Option Nat :=
  let ws1 := l.takeWhile isWsChar
  if ws1.isEmpty then none
  else
    match l.drop ws1.length with
    | '-' :: c :: rest =>
      if c.toLower == 'v' then
        match rest with
        | '-' :: rest2 =>
          let ws2 := rest2.takeWhile isWsChar
          if !ws2.isEmpty then some (ws1.length + 3 + ws2.length)
          else sepBVs ws1.length rest
        | _ => sepBVs ws1.length rest
      else none
    | _ => none

/-- First match of a separator matcher over all start positions,
returning (start index, match length). -/
def findSepFrom (f : List Char → Option Nat) : List Char → Option (Nat × Nat)
  | [] =>
    match f [] with
    | some len => some (0, len)
    | none => none
  | l@(_ :: rest) =>
    match f l with
    | some len => some (0, len)
    | none => (findSepFrom f rest).map (fun p => (p.1 + 1, p.2))

def findSepA (l : List Char) : Option (Nat × Nat) := findSepFrom sepAAt l

def findSepB (l : List Char) : Option (Nat × Nat) := findSepFrom sepBAt l

/-- `parts[0]` and `parts[2]` of a capturing split on a separator: the
text before the first match and the text between the first and second
matches (or to the end). -/
def splitSepParts (f : List Char → Option (Nat × Nat)) (l : List Char) :
    List Char × List Char :=
  match f l with
  | none => (l, [])
  | some (i, len) =>
    let after := l.drop (i + len)
    let second :=
      match f after with
      | none => after
      | some (j, _) => after.take j
    (l.take i, second)

/-- The claimant/defendant derivation of `extractDataTemplate5`
(lines 504–527): when either separator test succeeds the `-v-`/`-vs-`
split takes precedence; both parts are trimmed and pipe-stripped.  (A
successful split always yields at least three parts, so the
`parts.length >= 2` else-branch of the source is unreachable.)  With no
separator both values are "Not Provided". -/
def splitPartiesT5 (caseDetails : String) : String × String :=
  let l := caseDetails.data
  if (findSepA l).isSome || (findSepB l).isSome then
    let p :=
      if (findSepB l).isSome then splitSepParts findSepB l
      else splitSepParts findSepA l
    (stripPipesStr (String.mk (trimChars p.1)),
     stripPipesStr (String.mk (trimChars p.2)))
  else ("Not Provided", "Not Provided")

/-- The claimant/defendant derivation of `extractDataTemplate7`
(lines 717–735): the guard `/\s*v(?:s)?\s*/i.test(caseName)` holds
exactly when the string contains a `v` or `V` (both `\s*` may be empty);
when the guard holds but no `/\s+(v|vs)\s+/i` separator exists, the split
has a single part, so the claimant is the whole trimmed (pipe-stripped)
string and the defendant is "Not Provided". -/
def splitPartiesT7 (caseName : String) : String × String :=
  let l := caseName.data
  if l.any (fun c => c.toLower == 'v') then
    match findSepA l with
    | some _ =>
      let p := splitSepParts findSepA l
      (stripPipesStr (String.mk (trimChars p.1)),
       stripPipesStr (String.mk (trimChars p.2)))
    | none => (stripPipesStr (String.mk (trimChars l)), "Not Provided")
  else ("Not Provided", "Not Provided")

/-- `splitAtFirstPipe` from `extractDataTemplate4a`: split on the literal
separator `" | "`, keep the first part, re-join the rest with the same
separator (equivalently: everything after the first separator), trim
both. -/
def splitAtFirstPipe (text : String) : String × String :=
  match findSub text.data " | ".data with
  | none => (jsTrim text, "")
  | some i =>
    (String.mk (trimChars (text.data.take i)),
     String.mk (trimChars (text.data.drop (i + 3))))

/-! ## Document model

`Cell` models one `th`/`td` element: its recursive text (`$(cell).text()`),
the texts of its `<p>` descendants (used only by template 4a), its
`colspan` attribute, and whether it carries the `EmptyCellLayoutStyle`
class.  `HtmlTable` keeps the table's flattened text
(`$(table).text()`, used by the table locator) next to its rows. -/

structure Cell where
  text : String
  paras : List String
  colspan : Option String
  emptyLayout : Bool
deriving DecidableEq, Repr

structure HtmlTable where
  rawText : String
  rows : List (List Cell)
deriving DecidableEq, Repr

structure Doc where
  title : String
  body : String
  tables : List HtmlTable
deriving DecidableEq, Repr

/-- One output record (the `rowData` object): nine string fields. -/
structure CaseRecord where
  courtName : String
  courtDate : String
  claimNumber : String
  claimant : String
  defendant : String
  duration : String
  hearingType : String
  hearingChannel : String
  title : String
deriving DecidableEq, Repr

def defaultRec : CaseRecord :=
  ⟨"", "", "", "", "", "", "", "", ""⟩

/-- All `th`/`td` cells of all tables (`$('table').find('th, td')`). -/
def allCells (doc : Doc) : List Cell :=
  (doc.tables.map (fun t => t.rows.flatten)).flatten

/-- `cellsText[i]`: a JavaScript out-of-range index yields `undefined`,
which in every use below behaves as the empty string (regex tests on
`undefined` coerce to the letter string "undefined", which matches none of
the patterns involved, and `undefined || d` picks `d`). -/
def getCell (l : List String) (i : Nat) : String :=
  l.getD i ""

/-- `cellsText[headersIndex.f] || ''` where the header index may be
`undefined` (field never assigned) or negative (colspan arithmetic). -/
def jsIdx (l : List String) (oi : Option Int) : String :=
  match oi with
  | none => ""
  | some i => if i < 0 then "" else l.getD i.toNat ""

/-! ## `identifyTemplate` -/

/-- `/claim\s*number/i` on collapsed lower-cased text. -/
def claimNumberTok (s : String) : Bool := containsSeq s [pS "claim", pS "number"]

/-- `identifyTemplate` (lines 23–78).  `doc.body` models `$('body').text()`
and `doc.title` models `$('title').text()`. -/
def identifyTemplate (doc : Doc) : Option String :=
  let textContent := String.mk (collapseWSAux (lowerStr doc.body).data false)
  if containsSeq textContent [pS "case", pS "ref"] &&
     containsSeq textContent [pS "case", pS "name"] then
    some "template7"
  else if containsSeq textContent [pS "start", pS "time"] &&
          containsSub textContent "duration" &&
          (containsSeq textContent [pS "case", pS "details"] ||
           containsSeq textContent [pS "case", pS "detail"]) &&
          containsSeq textContent [pS "hearing", pS "type"] &&
          containsSeq textContent [pS "hearing", pS "channel"] then
    some "template5"
  else
    let isCourtServePage := containsSub (normalizeText doc.title) "courtserve"
    let hasTimeHeader := (allCells doc).any (fun c => normalizeText c.text == "time")
    let hasClaimNumberClaimantHeader := (allCells doc).any (fun c =>
      containsSub (normalizeText c.text) "claim number" &&
      containsSub (lowerStr c.text) "claimant")
    let hasDefendantHeader := (allCells doc).any (fun c =>
      containsSub (normalizeText c.text) "defendant")
    let hasGenericKeywords :=
      containsSub (lowerStr doc.body) "hearing room" ||
      containsSub (lowerStr doc.body) "deputy district judge" ||
      containsSub (lowerStr doc.body) "sitting at" ||
      containsSub (lowerStr doc.body) "court room" ||
      containsSub (lowerStr doc.body) "magistrates court"
    if claimNumberTok textContent &&
       containsSub textContent "nottingham" &&
       containsSub textContent "wigham" &&
       containsSeq textContent [pS "court", pS "room", pS "7"] then
      some "template4"
    else if (isCourtServePage && hasTimeHeader && hasClaimNumberClaimantHeader &&
             hasDefendantHeader && hasGenericKeywords) ||
            claimNumberTok textContent then
      some "template4a"
    else
      none

/-! ## Table locator (`scrapeDataFromHtml`, lines 938–978) -/

/-- `/\b[a-z0-9]{4,}\b\s+[a-z]+\s+[a-z]+/i` on normalized table text: a
word-boundary-delimited alphanumeric token of length at least four,
then whitespace, then two letter tokens. -/
def isAlnumCI (c : Char) : Bool := isDigitChar c || isAlphaChar c

def claimPatternAt (l : List Char) : Bool :=
  let run := l.takeWhile isAlnumCI
  let after := l.drop run.length
  run.length ≥ 4 &&
  (match after with
   | '_' :: _ => false
   | _ =>
     let ws1 := after.takeWhile isWsChar
     (!ws1.isEmpty) &&
     (let r1 := after.drop ws1.length
      let w1 := r1.takeWhile isAlphaChar
      (!w1.isEmpty) &&
      (let r2 := r1.drop w1.length
       let ws2 := r2.takeWhile isWsChar
       (!ws2.isEmpty) &&
       (let r3 := r2.drop ws2.length
        !(r3.takeWhile isAlphaChar).isEmpty))))

def hasClaimPatternAux : Option Char → List Char → Bool
  | prev, [] =>
    (match prev with
     | some p => !isWordChar p
     | none => true) && claimPatternAt []
  | prev, l@(c :: rest) =>
    ((match prev with
      | some p => !isWordChar p
      | none => true) && claimPatternAt l) || hasClaimPatternAux (some c) rest

def hasClaimPattern (s : String) : Bool :=
  hasClaimPatternAux none s.data

/-- The per-template table filter of `scrapeDataFromHtml`.  For template 5
the optional Welsh prefixes in the source regexes are optional groups and
hence never constrain the match. -/
def tableFilter (template : String) (t : HtmlTable) : Bool :=
  if template == "template4" then
    let tt := lowerStr t.rawText
    containsSeq tt [pS "claim", pS "number"] &&
    (containsSub tt "claimant" || containsSub tt "applicant" ||
     containsSub tt "petitioner")
  else if template == "template4a" then
    let tt := normalizeText t.rawText
    containsSeq tt [pS "time", pP "claim", pS "number", pP "claimant", pP "defendant"] ||
    hasClaimPattern tt
  else if template == "template7" then
    let tt := lowerStr t.rawText
    containsSeq tt [pS "case", pS "ref"] && containsSeq tt [pS "case", pS "name"]
  else if template == "template5" then
    let tt := String.mk (collapseWSAux (lowerStr t.rawText).data false)
    containsSeq tt [pS "start", pS "time"] &&
    containsSub tt "duration" &&
    containsSeq tt [pS "case", pS "detail"] &&
    containsSeq tt [pS "hearing", pS "type"] &&
    containsSeq tt [pS "hearing", pS "channel"]
  else
    false

def locateTables (doc : Doc) (template : String) : List HtmlTable :=
  doc.tables.filter (tableFilter template)

/-! ## Template 4 extractor (`extractDataTemplate4`, lines 89–225) -/

structure Headers4 where
  claimNumber : Option Int := none
  claimant : Option Int := none
  defendant : Option Int := none
deriving DecidableEq, Repr

/-- `Object.keys(headersIndex).length > 0`. -/
def Headers4.nonEmpty (h : Headers4) : Bool :=
  h.claimNumber.isSome || h.claimant.isSome || h.defendant.isSome

/-- One header cell of template 4: `/claim\s*number/i` is unanchored, the
party headers are exact matches; the running logical index advances by the
cell's colspan. -/
def headerStep4 (st : Headers4 × Int) (c : Cell) : Headers4 × Int :=
  let ht := normalizeText c.text
  let h := st.1
  let h :=
    if containsSeq ht [pS "claim", pS "number"] then
      { h with claimNumber := some st.2 }
    else if ht == "claimant" || ht == "applicant" || ht == "petitioner" then
      { h with claimant := some st.2 }
    else if ht == "defendant" || ht == "respondent" then
      { h with defendant := some st.2 }
    else h
  (h, st.2 + jsColspan c.colspan)

/-- The record built from one data row of template 4 (`none` when the row
is entirely empty and hence skipped). -/
def dataRec4 (titlename cd : String) (h : Headers4) (cellsText : List String) :
    Option CaseRecord :=
  if cellsText.all (fun t => t == "") then none
  else some {
    courtName := courtFromTitle titlename,
    courtDate := jsOr (formatCourtDateT4 cd) "",
    claimNumber := jsOr (jsOr (jsIdx cellsText h.claimNumber) "") "",
    claimant := jsOr (stripPipesStr (jsOr (jsIdx cellsText h.claimant) "")) "",
    defendant := jsOr (stripPipesStr (jsOr (jsIdx cellsText h.defendant) "")) "",
    duration := "Not Provided",
    hearingType := "Not Provided",
    hearingChannel := "Not Provided",
    title := titlename }

/-- One `tr` of template 4.  The `courtName` parameter of the source
function is reassigned from the title before every use, so it does not
appear here. -/
def processRow4 (titlename cd : String) (st : Headers4 × List CaseRecord)
    (row : List Cell) : Headers4 × List CaseRecord :=
  let cellsText := row.map (fun c => tidyText c.text)
  if cellsText.any (fun t => containsSeq (normalizeText t) [pS "claim", pS "number"]) then
    ((row.foldl headerStep4 (st.1, 0)).1, st.2)
  else if decide (1 < cellsText.length) && st.1.nonEmpty then
    match dataRec4 titlename cd st.1 cellsText with
    | none => st
    | some r => (st.1, st.2 ++ [r])
  else st

def extractDataTemplate4 (doc : Doc) (table : HtmlTable)
    (_courtName courtDate : String) : List CaseRecord :=
  let titlename := jsTrim doc.title
  (table.rows.foldl (processRow4 titlename courtDate) ({}, [])).2

/-! ## Template 4a extractor (`extractDataTemplate4a`, lines 236–404) -/

structure Headers4a where
  claimNumber : Option Int := none
  claimant : Option Int := none
  time : Option Int := none
  defendant : Option Int := none
deriving DecidableEq, Repr

def Headers4a.nonEmpty (h : Headers4a) : Bool :=
  h.claimNumber.isSome || h.claimant.isSome || h.time.isSome || h.defendant.isSome

/-- Template 4a cell text: the texts of the cell's `<p>` descendants,
tidied, the empty ones dropped, joined with `" | "`. -/
def joinPipe : List String → String
  | [] => ""
  | [s] => s
  | s :: rest => s ++ " | " ++ joinPipe rest

def cellText4a (c : Cell) : String :=
  joinPipe ((c.paras.map tidyText).filter (fun t => t != ""))

/-- `/^claim\s*number claimant$/i` on normalized text. -/
def isCombined4a (ht : String) : Bool :=
  ht == "claim number claimant" || ht == "claimnumber claimant"

/-- One header cell of template 4a: the combined cell assigns two logical
fields at consecutive indices. -/
def headerStep4a (st : Headers4a × Int) (c : Cell) : Headers4a × Int :=
  let ht := normalizeText c.text
  let h := st.1
  let h :=
    if isCombined4a ht then
      { h with claimNumber := some st.2, claimant := some (st.2 + 1) }
    else if ht == "time" then
      { h with time := some st.2 }
    else if ht == "defendant" || ht == "respondent" then
      { h with defendant := some st.2 }
    else h
  (h, st.2 + jsColspan c.colspan)

/-- The hard-coded lump the source special-cases before pipe-stripping. -/
def phoenixStr : String :=
  "Phoenix  Community  Housing | Association | (Bellingham & | Downham) | Limited"

/-- The claimant/defendant pair of a template 4a data row: with exactly 3
physical cells the third cell is split at the first `" | "` (an empty part
becoming "Not Provided", after the dead `phoenixStr` special case);
otherwise the parties come directly from cells 2 and 3, pipe-stripped. -/
def parties4a (cellsText : List String) : String × String :=
  if cellsText.length == 3 then
    let p := splitAtFirstPipe (jsOr (getCell cellsText 2) "")
    let p :=
      if p.1 == phoenixStr then (stripPipesStr p.1, stripPipesStr p.2)
      else p
    (if p.1 == "" then "Not Provided" else p.1,
     if p.2 == "" then "Not Provided" else p.2)
  else
    (stripPipesStr (jsOr (getCell cellsText 2) "Not Provided"),
     stripPipesStr (jsOr (getCell cellsText 3) "Not Provided"))

/-- The record built from one data row of template 4a (`none` when the row
is entirely empty): the claim number is the raw text of cell 1. -/
def dataRec4a (titlename cd : String) (cellsText : List String) :
    Option CaseRecord :=
  if cellsText.all (fun t => t == "") then none
  else some {
    courtName := courtFromTitle titlename,
    courtDate := jsOr (formatCourtDateT4 cd) "",
    claimNumber := jsOr (jsOr (getCell cellsText 1) "") "",
    claimant := jsOr (parties4a cellsText).1 "",
    defendant := jsOr (parties4a cellsText).2 "",
    duration := "Not Provided",
    hearingType := "Not Provided",
    hearingChannel := "Not Provided",
    title := titlename }

/-- One `tr` of template 4a.  Data rows read fixed physical positions:
`time` from cell 0, the claim number from cell 1, and the parties either
by splitting cell 2 at the first `" | "` (exactly 3 cells) or directly
from cells 2 and 3 (otherwise). -/
def processRow4a (titlename cd : String) (st : Headers4a × List CaseRecord)
    (row : List Cell) : Headers4a × List CaseRecord :=
  let cellsText := row.map cellText4a
  if cellsText.any (fun t =>
      containsSeq (normalizeText t) [pS "claim", pS "number claimant"]) then
    ((row.foldl headerStep4a (st.1, 0)).1, st.2)
  else if decide (1 < cellsText.length) && st.1.nonEmpty then
    match dataRec4a titlename cd cellsText with
    | none => st
    | some r => (st.1, st.2 ++ [r])
  else st

def extractDataTemplate4a (doc : Doc) (table : HtmlTable)
    (_courtName courtDate : String) : List CaseRecord :=
  let titlename := jsTrim doc.title
  (table.rows.foldl (processRow4a titlename courtDate) ({}, [])).2

/-! ## Template 5 extractor (`extractDataTemplate5`, lines 415–639) -/

structure Headers5 where
  startTime : Option Int := none
  duration : Option Int := none
  caseDetails : Option Int := none
  hearingType : Option Int := none
  hearingChannel : Option Int := none
deriving DecidableEq, Repr

def Headers5.nonEmpty (h : Headers5) : Bool :=
  h.startTime.isSome || h.duration.isSome || h.caseDetails.isSome ||
  h.hearingType.isSome || h.hearingChannel.isSome

/-- `/possessions?/i.test t`: the optional plural `s` never constrains a
containment test. -/
def possTest (t : String) : Bool :=
  containsSub (lowerStr t) "possession"

/-- `/party\s*name|parties\s*suppressed/i.test t`. -/
def partyTest (t : String) : Bool :=
  containsSeq (lowerStr t) [pS "party", pS "name"] ||
  containsSeq (lowerStr t) [pS "parties", pS "suppressed"]

def headerStep5 (st : Headers5 × Int) (c : Cell) : Headers5 × Int :=
  let ht := normalizeText c.text
  let h := st.1
  let h :=
    if containsSeq ht [pS "start", pS "time"] then
      { h with startTime := some st.2 }
    else if containsSub ht "duration" then
      { h with duration := some st.2 }
    else if containsSeq ht [pS "case", pS "detail"] then
      { h with caseDetails := some st.2 }
    else if containsSeq ht [pS "hearing", pS "type"] then
      { h with hearingType := some st.2 }
    else if containsSeq ht [pS "hearing", pS "channel"] then
      { h with hearingChannel := some st.2 }
    else h
  (h, st.2 + jsColspan c.colspan)

/-- `caseDetails.split(' ')[0]`. -/
def firstSpaceTok (s : String) : String :=
  String.mk (s.data.takeWhile (fun c => c != ' '))

def isUpperOrDigit (c : Char) : Bool :=
  ('A' ≤ c && c ≤ 'Z') || isDigitChar c

/-- `caseDetails.replace(/^[A-Z0-9]+ /, '')`: drop a non-empty leading
run of capitals/digits and the single space after it, when present. -/
def stripLeadCap (s : String) : String :=
  let run := s.data.takeWhile isUpperOrDigit
  if run.isEmpty then s
  else
    match s.data.drop run.length with
    | ' ' :: rest => String.mk rest
    | _ => s

/-- The hearing type of a template 5 data row: probed at position 5, then
3, then 6 (the caller drops the row when all three probes miss, so the
fallback to position 6 is only reached when position 6 matched). -/
def hearingType5 (cellsText : List String) : String :=
  if possTest (getCell cellsText 5) then getCell cellsText 5
  else if possTest (getCell cellsText 3) then getCell cellsText 3
  else getCell cellsText 6

/-- (startTime, duration, caseDetails, hearingChannel) of a template 5
data row, repositioned by comparing the found hearing type against the
texts at positions 3 and 6. -/
def fields5 (cellsText : List String) : String × String × String × String :=
  if hearingType5 cellsText == getCell cellsText 3 then
    (getCell cellsText 0, getCell cellsText 1, getCell cellsText 2,
     getCell cellsText 4)
  else if hearingType5 cellsText == getCell cellsText 6 then
    (getCell cellsText 3, getCell cellsText 4, getCell cellsText 5,
     getCell cellsText 7)
  else
    (getCell cellsText 2, getCell cellsText 3, getCell cellsText 4,
     getCell cellsText 6)

/-- The case-details text of a template 5 data row. -/
def caseDetails5 (cellsText : List String) : String :=
  (fields5 cellsText).2.2.1

/-- The record built from one template 5 data row, given that the row
passed the emptiness, possession and PCOL guards. -/
def rec5 (titlename cd : String) (cellsText : List String) : CaseRecord :=
  { courtName := courtFromTitle titlename,
    courtDate := jsOr (formatCourtDateT5 cd) "",
    claimNumber := jsOr (firstSpaceTok (caseDetails5 cellsText)) "Not Provided",
    claimant := jsOr (splitPartiesT5 (stripLeadCap (caseDetails5 cellsText))).1 "Not Provided",
    defendant := jsOr (splitPartiesT5 (stripLeadCap (caseDetails5 cellsText))).2 "Not Provided",
    duration := jsOr (fields5 cellsText).2.1 "Not Provided",
    hearingType := jsOr (hearingType5 cellsText) "Not Provided",
    hearingChannel := jsOr (fields5 cellsText).2.2.2 "Not Provided",
    title := titlename }

/-- Template 5 data-row outcome: `none` when the row is entirely empty,
when no probed position holds a possession hearing type, or when the
derived claim number is the PCOL sentinel. -/
def dataRec5 (titlename cd : String) (cellsText : List String) :
    Option CaseRecord :=
  if cellsText.all (fun t => t == "") then none
  else if !possTest (getCell cellsText 5) && !possTest (getCell cellsText 3) &&
          !possTest (getCell cellsText 6) then none
  else if firstSpaceTok (caseDetails5 cellsText) == "PCOL" then none
  else some (rec5 titlename cd cellsText)

/-- One `tr` of template 5.  `EmptyCellLayoutStyle` cells are dropped
first; rows naming suppressed parties are skipped before any other
classification. -/
def processRow5 (titlename cd : String) (st : Headers5 × List CaseRecord)
    (row : List Cell) : Headers5 × List CaseRecord :=
  let dataCells := row.filter (fun c => !c.emptyLayout)
  let cellsText := dataCells.map (fun c => tidyText c.text)
  if cellsText.any partyTest then st
  else if cellsText.any (fun t =>
      containsSeq (normalizeText t) [pS "start", pS "time"]) then
    ((dataCells.foldl headerStep5 (st.1, 0)).1, st.2)
  else if decide (1 < cellsText.length) && st.1.nonEmpty then
    match dataRec5 titlename cd cellsText with
    | none => st
    | some r => (st.1, st.2 ++ [r])
  else st

def extractDataTemplate5 (doc : Doc) (table : HtmlTable)
    (_courtName courtDate : String) : List CaseRecord :=
  let titlename := jsTrim doc.title
  (table.rows.foldl (processRow5 titlename courtDate) ({}, [])).2

/-! ## Template 7 extractor (`extractDataTemplate7`, lines 650–823) -/

structure Headers7 where
  time : Option Int := none
  caseRef : Option Int := none
  caseName : Option Int := none
  caseType : Option Int := none
  duration : Option Int := none
  hearingType : Option Int := none
  hearingPlatform : Option Int := none
deriving DecidableEq, Repr

def Headers7.nonEmpty (h : Headers7) : Bool :=
  h.time.isSome || h.caseRef.isSome || h.caseName.isSome || h.caseType.isSome ||
  h.duration.isSome || h.hearingType.isSome || h.hearingPlatform.isSome

/-- `/^a\s*b$/i` on normalized text: the two words fused or separated by
one space. -/
def eqTok2 (ht a b : String) : Bool :=
  ht == a ++ " " ++ b || ht == a ++ b

def headerStep7 (st : Headers7 × Int) (c : Cell) : Headers7 × Int :=
  let ht := normalizeText c.text
  let h := st.1
  let h :=
    if ht == "time" then { h with time := some st.2 }
    else if eqTok2 ht "case" "ref" then { h with caseRef := some st.2 }
    else if eqTok2 ht "case" "name" then { h with caseName := some st.2 }
    else if eqTok2 ht "case" "type" then { h with caseType := some st.2 }
    else if ht == "duration" then { h with duration := some st.2 }
    else if eqTok2 ht "hearing" "type" then { h with hearingType := some st.2 }
    else if eqTok2 ht "hearing" "platform" then
      { h with hearingPlatform := some st.2 }
    else h
  (h, st.2 + jsColspan c.colspan)

/-- Template 7 data-row outcome: `none` when the row is entirely empty or
the case type does not match `/posse|possession/i` (equivalently: does not
contain "posse"). -/
def dataRec7 (titlename cd : String) (h : Headers7) (cellsText : List String) :
    Option CaseRecord :=
  if cellsText.all (fun t => t == "") then none
  else if !containsSub (lowerStr (jsOr (jsIdx cellsText h.caseType) "")) "posse" then
    none
  else some {
    courtName := courtFromTitle titlename,
    courtDate := jsOr (formatCourtDateT4 cd) "",
    claimNumber := jsOr (jsOr (jsIdx cellsText h.caseRef) "") "",
    claimant := jsOr (splitPartiesT7 (getCell cellsText 3)).1 "Not Provided",
    defendant := jsOr (splitPartiesT7 (getCell cellsText 3)).2 "Not Provided",
    duration := jsOr (jsOr (jsIdx cellsText h.hearingType) "") "Not Provided",
    hearingType := jsOr (getCell cellsText 5) "Not Provided",
    hearingChannel := jsOr (getCell cellsText 6) "Not Provided",
    title := titlename }

/-- One `tr` of template 7.  The case name is read from the fixed physical
position 3 and the hearing type / platform from positions 5 and 6, while
time, case ref and case type go through the header map; `duration` reads
the `hearingType` index (a quirk of the source).  Only rows whose case
type matches `/posse|possession/i` (equivalently: contains "posse") are
kept; there is no PCOL check in this extractor. -/
def processRow7 (titlename cd : String) (st : Headers7 × List CaseRecord)
    (row : List Cell) : Headers7 × List CaseRecord :=
  let dataCells := row.filter (fun c => !c.emptyLayout)
  let cellsText := dataCells.map (fun c => tidyText c.text)
  if cellsText.any (fun t =>
      let n := normalizeText t
      n == "case ref" || n == "caseref") then
    ((dataCells.foldl headerStep7 (st.1, 0)).1, st.2)
  else if decide (1 < cellsText.length) && st.1.nonEmpty then
    match dataRec7 titlename cd st.1 cellsText with
    | none => st
    | some r => (st.1, st.2 ++ [r])
  else st

def extractDataTemplate7 (doc : Doc) (table : HtmlTable)
    (_courtName courtDate : String) : List CaseRecord :=
  let titlename := jsTrim doc.title
  (table.rows.foldl (processRow7 titlename courtDate) ({}, [])).2

/-! ## `scrapeDataFromHtml` (lines 851–1029)

The source reads a file, pre-scans the document's paragraph blocks for the
raw court name and court date, classifies the document, locates the
candidate tables, runs the per-template extractor over each and
deduplicates by claim number.  The pre-scan is a pre-processing step that
produces two strings handed to the extractors (spec §6); here they are the
`courtName` and `courtDate` parameters.  The `processedTables` set
deduplicates by element identity, which is a no-op on the distinct
elements of a document, and is therefore not modelled. -/

def extractForTemplate (template : String) (doc : Doc) (table : HtmlTable)
    (courtName courtDate : String) : List CaseRecord :=
  if template == "template4" then extractDataTemplate4 doc table courtName courtDate
  else if template == "template4a" then extractDataTemplate4a doc table courtName courtDate
  else if template == "template7" then extractDataTemplate7 doc table courtName courtDate
  else if template == "template5" then extractDataTemplate5 doc table courtName courtDate
  else []

/-- The dedup step: a record whose claim number was already seen is
dropped, otherwise it is appended and its claim number recorded. -/
def dedupStep (st : List String × List CaseRecord) (r : CaseRecord) :
    List String × List CaseRecord :=
  if st.1.contains r.claimNumber then st
  else (r.claimNumber :: st.1, st.2 ++ [r])

def scrapeDataFromHtml (doc : Doc) (courtName courtDate : String) :
    List CaseRecord :=
  match identifyTemplate doc with
  | none => []
  | some template =>
    let tables := locateTables doc template
    if tables.isEmpty then []
    else
      (tables.foldl
        (fun st table =>
          (extractForTemplate template doc table courtName courtDate).foldl
            dedupStep st)
        ([], [])).2

/-- The rows produced by the extractors before deduplication, in
production order. -/
def extractedRows (doc : Doc) (courtName courtDate : String) :
    List CaseRecord :=
  match identifyTemplate doc with
  | none => []
  | some template =>
    let tables := locateTables doc template
    if tables.isEmpty then []
    else
      ((locateTables doc template).map
        (fun table => extractForTemplate template doc table courtName courtDate)).flatten

/-! ## Concrete documents used by the witnesses and counterexamples -/

/-- A plain cell with no paragraphs, no colspan and no layout class. -/
def mkCell (t : String) : Cell := ⟨t, [], none, false⟩

/-- A cell whose text is also its single paragraph (template 4a reads
paragraph texts). -/
def mkPCell (t : String) : Cell := ⟨t, [t], none, false⟩

def w5HeaderRow : List Cell :=
  [mkCell "Start Time", mkCell "Duration", mkCell "Case Details",
   mkCell "Hearing Type", mkCell "Hearing Channel"]

def w5DataRow : List Cell :=
  [mkCell "1", mkCell "09:00", mkCell "AM", mkCell "30 mins",
   mkCell "CASE1 Smith v Jones", mkCell "Possession Hearing", mkCell "Video"]

def w5Table : HtmlTable :=
  ⟨"Start Time Duration Case Details Hearing Type Hearing Channel CASE1 Smith v Jones Possession Hearing Video",
   [w5HeaderRow, w5DataRow]⟩

def w5Doc : Doc :=
  ⟨"", "Start Time Duration Case Details Hearing Type Hearing Channel", [w5Table]⟩

def ex4aHeaderRow : List Cell :=
  [mkPCell "Time", mkPCell "Claim Number Claimant", mkPCell "Defendant"]

def ex4aDataRow : List Cell :=
  [mkPCell "09:00",
   ⟨"CL123 John Smith", ["CL123", "John Smith"], none, false⟩,
   mkPCell "Jane Doe"]

def ex4aTable : HtmlTable :=
  ⟨"Time Claim Number Claimant Defendant", [ex4aHeaderRow, ex4aDataRow]⟩

def ex4aDoc : Doc := ⟨"", "", [ex4aTable]⟩

def pcolHeaderRow : List Cell :=
  [mkCell "Time", mkCell "Case Ref", mkCell "Case Name", mkCell "Case Type",
   mkCell "Duration", mkCell "Hearing Type", mkCell "Hearing Platform"]

def pcolDataRow : List Cell :=
  [mkCell "10:00", mkCell "PCOL", mkCell "Smith v Jones",
   mkCell "Housing Possession", mkCell "30", mkCell "Possession Hearing",
   mkCell "Video"]

def pcolTable : HtmlTable :=
  ⟨"Case Ref Case Name", [pcolHeaderRow, pcolDataRow]⟩

def pcolDoc : Doc := ⟨"", "case ref case name", [pcolTable]⟩

def w4HeaderRow : List Cell :=
  [mkCell "Claim Number", mkCell "Claimant", mkCell "Defendant"]

def w4DataRow : List Cell :=
  [mkCell "C100", mkCell "Alice", mkCell "Bob"]

def w4Table : HtmlTable :=
  ⟨"Claim Number Claimant Defendant", [w4HeaderRow, w4DataRow]⟩

def w4Doc : Doc :=
  ⟨"CourtServe: Leeds County Court Daily List", "claim number", [w4Table]⟩

def emptyDoc : Doc := ⟨"", "", []⟩

def noTableDoc : Doc := ⟨"", "case ref and case name appear here", []⟩

/-! ## Helper lemmas -/

theorem jsOr_of_ne (a b : String) (h : a ≠ "") : jsOr a b = a := by
  simp [jsOr, h]

theorem possTest_ne_empty (t : String) (h : possTest t = true) : t ≠ "" := by
  intro he
  subst he
  simp [possTest, containsSub, findSub, lowerStr] at h

theorem possTest_jsOr (a b : String) (h : possTest a = true) :
    possTest (jsOr a b) = true := by
  rw [jsOr_of_ne a b (possTest_ne_empty a h)]
  exact h

theorem jsOr_np_ne_pcol (a : String) (h : a ≠ "PCOL") :
    jsOr a "Not Provided" ≠ "PCOL" := by
  unfold jsOr
  split
  · decide
  · exact h

/-- Fold preservation: if every step either keeps the record list or adds
records satisfying `P`, the final list only adds records satisfying `P`. -/
theorem foldl_snd_preserve {σ α β : Type} (step : σ × List β → α → σ × List β)
    (P : β → Prop)
    (hstep : ∀ st a r, r ∈ (step st a).2 → r ∈ st.2 ∨ P r) :
    ∀ (l : List α) (st : σ × List β) (r : β),
      r ∈ (l.foldl step st).2 → r ∈ st.2 ∨ P r := by
  intro l
  induction l with
  | nil => intro st r h; exact Or.inl h
  | cons a t ih =>
    intro st r h
    rcases ih (step st a) r h with h' | h'
    · exact hstep st a r h'
    · exact Or.inr h'

/-- A template 5 data row that produces a record produces one with a
possession hearing type, a non-PCOL claim number and the title-derived
court name. -/
theorem dataRec5_some (tn cd : String) (ct : List String) (r : CaseRecord)
    (h : dataRec5 tn cd ct = some r) :
    possTest r.hearingType = true ∧ r.claimNumber ≠ "PCOL" ∧
    r.courtName = courtFromTitle tn := by
  unfold dataRec5 at h
  split at h
  · exact absurd h (by simp)
  case isFalse =>
    split at h
    · exact absurd h (by simp)
    case isFalse hprobe =>
      split at h
      · exact absurd h (by simp)
      case isFalse hpcol =>
        have hr : r = rec5 tn cd ct := by
          injection h with h'
          exact h'.symm
        subst hr
        refine ⟨?_, ?_, rfl⟩
        · show possTest (jsOr (hearingType5 ct) "Not Provided") = true
          apply possTest_jsOr
          unfold hearingType5
          split
          case isTrue h5 => exact h5
          case isFalse h5 =>
            split
            case isTrue h3 => exact h3
            case isFalse h3 =>
              simp only [Bool.not_eq_true] at h5 h3
              simp [h5, h3] at hprobe
              exact hprobe
        · show jsOr (firstSpaceTok (caseDetails5 ct)) "Not Provided" ≠ "PCOL"
          apply jsOr_np_ne_pcol
          intro he
          exact hpcol (by simp [he])

/-- Every step of template 5 either leaves the output unchanged or appends
one record with a possession hearing type, a claim number other than
"PCOL", and the court name derived from the document title. -/
theorem processRow5_cases (tn cd : String) (st : Headers5 × List CaseRecord)
    (row : List Cell) :
    (processRow5 tn cd st row).2 = st.2 ∨
    ∃ rec, (processRow5 tn cd st row).2 = st.2 ++ [rec] ∧
      possTest rec.hearingType = true ∧ rec.claimNumber ≠ "PCOL" ∧
      rec.courtName = courtFromTitle tn := by
  unfold processRow5
  simp only []
  split
  · exact Or.inl rfl
  split
  · exact Or.inl rfl
  split
  case isFalse => exact Or.inl rfl
  case isTrue =>
    split
    case h_1 => exact Or.inl rfl
    case h_2 r heq => exact Or.inr ⟨r, rfl, dataRec5_some _ _ _ _ heq⟩

theorem dataRec4_some (tn cd : String) (h : Headers4) (ct : List String)
    (r : CaseRecord) (hr : dataRec4 tn cd h ct = some r) :
    r.courtName = courtFromTitle tn := by
  unfold dataRec4 at hr
  split at hr
  · exact absurd hr (by simp)
  · injection hr with h'
    rw [← h']

theorem processRow4_cases (tn cd : String) (st : Headers4 × List CaseRecord)
    (row : List Cell) :
    (processRow4 tn cd st row).2 = st.2 ∨
    ∃ rec, (processRow4 tn cd st row).2 = st.2 ++ [rec] ∧
      rec.courtName = courtFromTitle tn := by
  unfold processRow4
  simp only []
  split
  · exact Or.inl rfl
  split
  case isFalse => exact Or.inl rfl
  case isTrue =>
    split
    case h_1 => exact Or.inl rfl
    case h_2 r heq => exact Or.inr ⟨r, rfl, dataRec4_some _ _ _ _ _ heq⟩

theorem dataRec4a_some (tn cd : String) (ct : List String)
    (r : CaseRecord) (hr : dataRec4a tn cd ct = some r) :
    r.courtName = courtFromTitle tn := by
  unfold dataRec4a at hr
  split at hr
  · exact absurd hr (by simp)
  · injection hr with h'
    rw [← h']

theorem processRow4a_cases (tn cd : String) (st : Headers4a × List CaseRecord)
    (row : List Cell) :
    (processRow4a tn cd st row).2 = st.2 ∨
    ∃ rec, (processRow4a tn cd st row).2 = st.2 ++ [rec] ∧
      rec.courtName = courtFromTitle tn := by
  unfold processRow4a
  simp only []
  split
  · exact Or.inl rfl
  split
  case isFalse => exact Or.inl rfl
  case isTrue =>
    split
    case h_1 => exact Or.inl rfl
    case h_2 r heq => exact Or.inr ⟨r, rfl, dataRec4a_some _ _ _ _ heq⟩

theorem dataRec7_some (tn cd : String) (h : Headers7) (ct : List String)
    (r : CaseRecord) (hr : dataRec7 tn cd h ct = some r) :
    r.courtName = courtFromTitle tn := by
  unfold dataRec7 at hr
  split at hr
  · exact absurd hr (by simp)
  split at hr
  · exact absurd hr (by simp)
  · injection hr with h'
    rw [← h']

theorem processRow7_cases (tn cd : String) (st : Headers7 × List CaseRecord)
    (row : List Cell) :
    (processRow7 tn cd st row).2 = st.2 ∨
    ∃ rec, (processRow7 tn cd st row).2 = st.2 ++ [rec] ∧
      rec.courtName = courtFromTitle tn := by
  unfold processRow7
  simp only []
  split
  · exact Or.inl rfl
  split
  case isFalse => exact Or.inl rfl
  case isTrue =>
    split
    case h_1 => exact Or.inl rfl
    case h_2 r heq => exact Or.inr ⟨r, rfl, dataRec7_some _ _ _ _ _ heq⟩

/-- Turn a step-shape fact into a membership fact. -/
theorem mem_of_step_shape {out base : List CaseRecord} {P : CaseRecord → Prop}
    (h : out = base ∨ ∃ rec, out = base ++ [rec] ∧ P rec) :
    ∀ r ∈ out, r ∈ base ∨ P r := by
  intro r hr
  rcases h with heq | ⟨rec, heq, hp⟩
  · rw [heq] at hr
    exact Or.inl hr
  · rw [heq] at hr
    rcases List.mem_append.1 hr with h' | h'
    · exact Or.inl h'
    · rw [List.mem_singleton.1 h']
      exact Or.inr hp

/-- Every record of the template 5 extractor has a possession hearing
type, a non-PCOL claim number, and its court name comes from the title. -/
theorem extract5_mem (doc : Doc) (table : HtmlTable) (cn cd : String)
    (r : CaseRecord) (hr : r ∈ extractDataTemplate5 doc table cn cd) :
    possTest r.hearingType = true ∧ r.claimNumber ≠ "PCOL" ∧
    r.courtName = courtFromTitle (jsTrim doc.title) := by
  unfold extractDataTemplate5 at hr
  have hres := foldl_snd_preserve (processRow5 (jsTrim doc.title) cd)
    (fun rec => possTest rec.hearingType = true ∧ rec.claimNumber ≠ "PCOL" ∧
      rec.courtName = courtFromTitle (jsTrim doc.title))
    (fun st a rec hmem =>
      mem_of_step_shape (processRow5_cases (jsTrim doc.title) cd st a) rec hmem)
    table.rows ({}, []) r hr
  rcases hres with h | h
  · exact absurd h (List.not_mem_nil r)
  · exact h

theorem extract4_mem (doc : Doc) (table : HtmlTable) (cn cd : String)
    (r : CaseRecord) (hr : r ∈ extractDataTemplate4 doc table cn cd) :
    r.courtName = courtFromTitle (jsTrim doc.title) := by
  unfold extractDataTemplate4 at hr
  have hres := foldl_snd_preserve (processRow4 (jsTrim doc.title) cd)
    (fun rec => rec.courtName = courtFromTitle (jsTrim doc.title))
    (fun st a rec hmem =>
      mem_of_step_shape (processRow4_cases (jsTrim doc.title) cd st a) rec hmem)
    table.rows ({}, []) r hr
  rcases hres with h | h
  · exact absurd h (List.not_mem_nil r)
  · exact h

theorem extract4a_mem (doc : Doc) (table : HtmlTable) (cn cd : String)
    (r : CaseRecord) (hr : r ∈ extractDataTemplate4a doc table cn cd) :
    r.courtName = courtFromTitle (jsTrim doc.title) := by
  unfold extractDataTemplate4a at hr
  have hres := foldl_snd_preserve (processRow4a (jsTrim doc.title) cd)
    (fun rec => rec.courtName = courtFromTitle (jsTrim doc.title))
    (fun st a rec hmem =>
      mem_of_step_shape (processRow4a_cases (jsTrim doc.title) cd st a) rec hmem)
    table.rows ({}, []) r hr
  rcases hres with h | h
  · exact absurd h (List.not_mem_nil r)
  · exact h

theorem extract7_mem (doc : Doc) (table : HtmlTable) (cn cd : String)
    (r : CaseRecord) (hr : r ∈ extractDataTemplate7 doc table cn cd) :
    r.courtName = courtFromTitle (jsTrim doc.title) := by
  unfold extractDataTemplate7 at hr
  have hres := foldl_snd_preserve (processRow7 (jsTrim doc.title) cd)
    (fun rec => rec.courtName = courtFromTitle (jsTrim doc.title))
    (fun st a rec hmem =>
      mem_of_step_shape (processRow7_cases (jsTrim doc.title) cd st a) rec hmem)
    table.rows ({}, []) r hr
  rcases hres with h | h
  · exact absurd h (List.not_mem_nil r)
  · exact h

/-! ## Deduplication lemmas -/

/-- The claim numbers seen after folding `dedupStep` over `recs`. -/
def seenAfter : List CaseRecord → List String → List String
  | [], seen => seen
  | r :: rest, seen =>
    seenAfter rest
      (if seen.contains r.claimNumber then seen else r.claimNumber :: seen)

/-- Accumulator-free form of the dedup fold. -/
def dedupGo : List CaseRecord → List String → List CaseRecord
  | [], _ => []
  | r :: rest, seen =>
    if seen.contains r.claimNumber then dedupGo rest seen
    else r :: dedupGo rest (r.claimNumber :: seen)

theorem foldl_dedupStep (recs : List CaseRecord) :
    ∀ seen acc, recs.foldl dedupStep (seen, acc) =
      (seenAfter recs seen, acc ++ dedupGo recs seen) := by
  induction recs with
  | nil => intro seen acc; simp [seenAfter, dedupGo]
  | cons r rest ih =>
    intro seen acc
    simp only [List.foldl_cons, dedupStep, seenAfter, dedupGo]
    by_cases h : r.claimNumber ∈ seen
    · simp [h, ih]
    · simp [h, ih]

theorem foldl_tables_dedup (f : HtmlTable → List CaseRecord) :
    ∀ (tables : List HtmlTable) (st : List String × List CaseRecord),
      tables.foldl (fun st table => (f table).foldl dedupStep st) st =
        ((tables.map f).flatten).foldl dedupStep st := by
  intro tables
  induction tables with
  | nil => intro st; simp
  | cons t rest ih =>
    intro st
    simp only [List.foldl_cons, List.map_cons, List.flatten_cons,
      List.foldl_append, ih]

theorem dedupGo_sublist (l : List CaseRecord) :
    ∀ seen, List.Sublist (dedupGo l seen) l := by
  induction l with
  | nil => intro seen; simp [dedupGo]
  | cons r rest ih =>
    intro seen
    unfold dedupGo
    split
    · exact (ih seen).cons r
    · exact (ih _).cons₂ r

theorem dedupGo_filter (l : List CaseRecord) :
    ∀ (seen : List String) (c : String),
      (dedupGo l seen).filter (fun r => r.claimNumber == c) =
        if c ∈ seen then []
        else (l.filter (fun r => r.claimNumber == c)).take 1 := by
  induction l with
  | nil => intro seen c; by_cases hc : c ∈ seen <;> simp [dedupGo, hc]
  | cons r rest ih =>
    intro seen c
    unfold dedupGo
    by_cases hseen : r.claimNumber ∈ seen
    · rw [if_pos (by simpa using hseen), ih]
      by_cases hc : c ∈ seen
      · simp [hc]
      · have hne : (r.claimNumber == c) = false := by
          simp only [beq_eq_false_iff_ne, ne_eq]
          intro heq
          rw [heq] at hseen
          exact hc hseen
        simp [hc, List.filter_cons, hne]
    · rw [if_neg (by simpa using hseen)]
      by_cases hrc : r.claimNumber = c
      · subst hrc
        simp [List.filter_cons, ih, hseen]
      · have hne : (r.claimNumber == c) = false := by simp [hrc]
        have hsym : ¬(c = r.claimNumber) := fun h => hrc h.symm
        by_cases hc : c ∈ seen
        · simp [List.filter_cons, hne, ih, hc, hsym]
        · simp [List.filter_cons, hne, ih, hc, hsym]

/-! ## Additional concrete inputs for witnesses -/

/-- A document whose body satisfies the CaseRefLayout predicate *and* the
PossessionScheduleLayout and claim-number predicates of later branches. -/
def multiSignalDoc : Doc :=
  ⟨"", "case ref case name start time duration case details hearing type hearing channel claim number", []⟩

def colspan0Cell : Cell :=
  ⟨"Claim Number Claimant", ["Claim Number Claimant"], some "0", false⟩

def combinedHeaderCell : Cell :=
  ⟨"Claim Number Claimant", ["Claim Number Claimant"], none, false⟩

/-! ## Claim C1 -/

/-- C1: every record emitted by the PossessionScheduleLayout (template 5)
row extractor has a Hearing Type matching the case-insensitive
"possession"/"possessions" token, and a row whose probed hearing-type
cells (positions 5, 3 and 6) all fail the token test produces no
record. -/
theorem c1_possession_filter :
    (∀ (doc : Doc) (table : HtmlTable) (cn cd : String) (r : CaseRecord),
      r ∈ extractDataTemplate5 doc table cn cd → possTest r.hearingType = true) ∧
    (∀ (tn cd : String) (st : Headers5 × List CaseRecord) (row : List Cell),
      possTest (getCell ((row.filter (fun c => !c.emptyLayout)).map
        (fun c => tidyText c.text)) 5) = false →
      possTest (getCell ((row.filter (fun c => !c.emptyLayout)).map
        (fun c => tidyText c.text)) 3) = false →
      possTest (getCell ((row.filter (fun c => !c.emptyLayout)).map
        (fun c => tidyText c.text)) 6) = false →
      (processRow5 tn cd st row).2 = st.2) := by
  refine ⟨fun doc table cn cd r hr => (extract5_mem doc table cn cd r hr).1, ?_⟩
  intro tn cd st row h5 h3 h6
  unfold processRow5
  simp only []
  split
  · rfl
  split
  · rfl
  split
  case isFalse => rfl
  case isTrue =>
    split
    case h_1 => rfl
    case h_2 r heq =>
      exfalso
      unfold dataRec5 at heq
      split at heq
      · exact absurd heq (by simp)
      · simp [h5, h3, h6] at heq

theorem c1_possession_filter_witness :
    possTest ((extractDataTemplate5 w5Doc w5Table "" "").getD 0 defaultRec).hearingType
      = true ∧
    (processRow5 "" "" ({}, []) w5HeaderRow).2 = [] :=
  ⟨c1_possession_filter.1 w5Doc w5Table "" "" _ (by decide),
   c1_possession_filter.2 "" "" ({}, []) w5HeaderRow (by decide) (by decide) (by decide)⟩

/-! ## Claim C7 -/

/-- C7 counterexample: the CaseRefLayout (template 7) extractor has no
PCOL guard; a data row whose case-ref cell holds "PCOL" yields a record
with Claim Number "PCOL". -/
theorem c7_pcol_counterexample :
    (extractDataTemplate7 pcolDoc pcolTable "" "").map (fun r => r.claimNumber)
      = ["PCOL"] := by decide

/-- C7 amended: only the PossessionScheduleLayout (template 5) extractor
rejects the PCOL sentinel: no record it emits carries Claim Number
"PCOL". -/
theorem c7_pcol_amended (doc : Doc) (table : HtmlTable) (cn cd : String)
    (r : CaseRecord) (hr : r ∈ extractDataTemplate5 doc table cn cd) :
    r.claimNumber ≠ "PCOL" :=
  (extract5_mem doc table cn cd r hr).2.1

theorem c7_pcol_amended_witness :
    ((extractDataTemplate5 w5Doc w5Table "" "").getD 0 defaultRec).claimNumber
      ≠ "PCOL" :=
  c7_pcol_amended w5Doc w5Table "" "" _ (by decide)

/-! ## Claim C10 -/

/-- C10: in every primary row extractor the pre-scanned court-name
argument never influences the output, and every emitted record's Court
Name is derived from the document title via the
"CourtServe: (location) County Court" pattern (empty when the title does
not match). -/
theorem c10_courtname_from_title (doc : Doc) (table : HtmlTable)
    (cn cn' cd : String) :
    (extractDataTemplate4 doc table cn cd = extractDataTemplate4 doc table cn' cd ∧
     extractDataTemplate4a doc table cn cd = extractDataTemplate4a doc table cn' cd ∧
     extractDataTemplate5 doc table cn cd = extractDataTemplate5 doc table cn' cd ∧
     extractDataTemplate7 doc table cn cd = extractDataTemplate7 doc table cn' cd) ∧
    (∀ r ∈ extractDataTemplate4 doc table cn cd,
      r.courtName = courtFromTitle (jsTrim doc.title)) ∧
    (∀ r ∈ extractDataTemplate4a doc table cn cd,
      r.courtName = courtFromTitle (jsTrim doc.title)) ∧
    (∀ r ∈ extractDataTemplate5 doc table cn cd,
      r.courtName = courtFromTitle (jsTrim doc.title)) ∧
    (∀ r ∈ extractDataTemplate7 doc table cn cd,
      r.courtName = courtFromTitle (jsTrim doc.title)) := by
  refine ⟨⟨rfl, rfl, rfl, rfl⟩, ?_, ?_, ?_, ?_⟩
  · exact fun r hr => extract4_mem doc table cn cd r hr
  · exact fun r hr => extract4a_mem doc table cn cd r hr
  · exact fun r hr => (extract5_mem doc table cn cd r hr).2.2
  · exact fun r hr => extract7_mem doc table cn cd r hr

theorem c10_courtname_from_title_witness :
    extractDataTemplate4 w4Doc w4Table "scanned-A" "" =
      extractDataTemplate4 w4Doc w4Table "scanned-B" "" ∧
    ((extractDataTemplate4 w4Doc w4Table "scanned-A" "").getD 0 defaultRec).courtName =
      courtFromTitle (jsTrim w4Doc.title) ∧
    courtFromTitle (jsTrim w4Doc.title) = "Leeds" :=
  ⟨(c10_courtname_from_title w4Doc w4Table "scanned-A" "scanned-B" "").1.1,
   (c10_courtname_from_title w4Doc w4Table "scanned-A" "scanned-B" "").2.1 _ (by decide),
   by decide⟩

/-! ## Claim C3 -/

/-- C3 counterexample: a colspan attribute of "0" parses to the number 0
(it is numeric, not absent), yet the running logical index advances by 1
because `parseInt(...) || 1` treats 0 as falsy — not by the attribute
value. -/
theorem c3_colspan_counterexample :
    jsParseInt "0" = some 0 ∧
    (headerStep4a ({}, 0) colspan0Cell).2 = 1 ∧ (1 : Int) ≠ 0 := by decide

/-- C3 amended: a header cell normalizing to "claim number claimant" at
running index `i` assigns claimNumber at `i` and claimant at `i + 1`; the
index advances by `parseInt(colspan) || 1`, which is the parsed colspan
when that is a nonzero number, and 1 when the attribute is absent,
non-numeric, or zero — never an error. -/
theorem c3_combined_header_mapping (h : Headers4a) (i : Int) (c : Cell) :
    (normalizeText c.text = "claim number claimant" →
      headerStep4a (h, i) c =
        ({ h with claimNumber := some i, claimant := some (i + 1) },
         i + jsColspan c.colspan)) ∧
    (headerStep4a (h, i) c).2 = i + jsColspan c.colspan ∧
    jsColspan none = 1 ∧
    (∀ s : String, jsParseInt s = none → jsColspan (some s) = 1) ∧
    (∀ s : String, jsParseInt s = some 0 → jsColspan (some s) = 1) ∧
    (∀ (s : String) (n : Int), jsParseInt s = some n → n ≠ 0 →
      jsColspan (some s) = n) := by
  refine ⟨?_, rfl, rfl, ?_, ?_, ?_⟩
  · intro hc
    simp [headerStep4a, hc, isCombined4a]
  · intro s hp
    simp [jsColspan, hp]
  · intro s hp
    simp [jsColspan, hp]
  · intro s n hp hn
    simp [jsColspan, hp, hn]

theorem c3_combined_header_mapping_witness :
    normalizeText combinedHeaderCell.text = "claim number claimant" ∧
    headerStep4a ({}, 1) combinedHeaderCell =
      ({ claimNumber := some 1, claimant := some 2, time := none,
         defendant := none }, 2) ∧
    jsParseInt "abc" = none ∧ jsColspan (some "abc") = 1 := by
  refine ⟨by decide, ?_, by decide,
    (c3_combined_header_mapping {} 1 combinedHeaderCell).2.2.2.1 "abc" (by decide)⟩
  rw [(c3_combined_header_mapping {} 1 combinedHeaderCell).1 (by decide)]
  decide

/-! ## Claim C5 -/

/-- C5 counterexample: the `formatCourtDate` shared by templates 4, 4a
and 7 returns the empty string on the comma-free input
"15th November 2024" instead of "15/11/2024" — only the template 5
variant parses comma-free dates. -/
theorem c5_date_counterexample :
    formatCourtDateT4 "15th November 2024" = "" ∧
    formatCourtDateT4 "15th November 2024" ≠ "15/11/2024" := by decide

/-- C5 amended: both `formatCourtDate` variants map
"Tuesday, 18th October 2024" to "18/10/2024"; the template 5 variant maps
the comma-free "15th November 2024" to "15/11/2024" by parsing the whole
string, while the template 4/4a/7 variant returns "" on comma-free
input. -/
theorem c5_date_roundtrip :
    formatCourtDateT4 "Tuesday, 18th October 2024" = "18/10/2024" ∧
    formatCourtDateT5 "Tuesday, 18th October 2024" = "18/10/2024" ∧
    formatCourtDateT5 "15th November 2024" = "15/11/2024" ∧
    formatCourtDateT4 "15th November 2024" = "" := by decide

/-! ## Claim C6 -/

/-- C6 counterexample: on "Smith Only" (which contains no separator
token) both splitters return claimant "Not Provided", not the whole
trimmed input. -/
theorem c6_split_counterexample :
    splitPartiesT5 "Smith Only" = ("Not Provided", "Not Provided") ∧
    splitPartiesT7 "Smith Only" = ("Not Provided", "Not Provided") ∧
    splitPartiesT5 "Smith Only" ≠ ("Smith Only", "Not Provided") := by decide

/-- C6 amended: with no separator match the template 5 splitter returns
("Not Provided", "Not Provided"); the template 7 splitter returns the
whole trimmed pipe-stripped input as claimant only when the string
contains a letter "v" (its loose guard `/\s*v(?:s)?\s*/i`), and
("Not Provided", "Not Provided") otherwise; "Smith v Jones" splits into
("Smith", "Jones") in both. -/
theorem c6_split_behaviour :
    (∀ s : String, findSepA s.data = none → findSepB s.data = none →
      splitPartiesT5 s = ("Not Provided", "Not Provided")) ∧
    (∀ s : String, findSepA s.data = none →
      splitPartiesT7 s =
        if s.data.any (fun c => c.toLower == 'v') then
          (stripPipesStr (String.mk (trimChars s.data)), "Not Provided")
        else ("Not Provided", "Not Provided")) ∧
    splitPartiesT5 "Smith v Jones" = ("Smith", "Jones") ∧
    splitPartiesT7 "Smith v Jones" = ("Smith", "Jones") := by
  refine ⟨?_, ?_, by decide, by decide⟩
  · intro s h1 h2
    simp [splitPartiesT5, h1, h2]
  · intro s h1
    simp only [splitPartiesT7, h1]

theorem c6_split_behaviour_witness :
    findSepA "Smith Only".data = none ∧ findSepB "Smith Only".data = none ∧
    splitPartiesT5 "Smith Only" = ("Not Provided", "Not Provided") ∧
    splitPartiesT7 "David Smith" =
      (stripPipesStr (String.mk (trimChars "David Smith".data)), "Not Provided") := by
  refine ⟨by decide, by decide, c6_split_behaviour.1 "Smith Only" (by decide) (by decide), ?_⟩
  rw [c6_split_behaviour.2.1 "David Smith" (by decide)]
  decide

/-! ## Claim C8 -/

/-- C8: a document whose body text contains both the case-ref and
case-name tokens is classified CaseRefLayout (template 7) by the first
branch of the waterfall, regardless of any later branch's predicate. -/
theorem c8_waterfall_first_match (doc : Doc)
    (h1 : containsSeq (String.mk (collapseWSAux (lowerStr doc.body).data false))
      [pS "case", pS "ref"] = true)
    (h2 : containsSeq (String.mk (collapseWSAux (lowerStr doc.body).data false))
      [pS "case", pS "name"] = true) :
    identifyTemplate doc = some "template7" := by
  unfold identifyTemplate
  simp only [h1, h2]
  rfl

theorem c8_waterfall_first_match_witness :
    identifyTemplate multiSignalDoc = some "template7" :=
  c8_waterfall_first_match multiSignalDoc (by decide) (by decide)

/-! ## Claim C9 -/

/-- C9: classification is total (it yields one of the four template
identifiers or `none`), and extraction returns the empty record list both
when classification fails and when no candidate table passes the layout's
table filter. -/
theorem c9_totality (doc : Doc) (cn cd : String) :
    (identifyTemplate doc = none ∨ identifyTemplate doc = some "template7" ∨
     identifyTemplate doc = some "template5" ∨
     identifyTemplate doc = some "template4" ∨
     identifyTemplate doc = some "template4a") ∧
    (identifyTemplate doc = none → scrapeDataFromHtml doc cn cd = []) ∧
    (∀ t, identifyTemplate doc = some t → locateTables doc t = [] →
      scrapeDataFromHtml doc cn cd = []) := by
  refine ⟨?_, ?_, ?_⟩
  · unfold identifyTemplate
    simp only []
    split
    · exact Or.inr (Or.inl rfl)
    split
    · exact Or.inr (Or.inr (Or.inl rfl))
    split
    · exact Or.inr (Or.inr (Or.inr (Or.inl rfl)))
    split
    · exact Or.inr (Or.inr (Or.inr (Or.inr rfl)))
    · exact Or.inl rfl
  · intro h
    unfold scrapeDataFromHtml
    rw [h]
  · intro t ht hloc
    unfold scrapeDataFromHtml
    rw [ht]
    simp [hloc]

theorem c9_totality_witness :
    identifyTemplate emptyDoc = none ∧ scrapeDataFromHtml emptyDoc "" "" = [] ∧
    identifyTemplate noTableDoc = some "template7" ∧
    locateTables noTableDoc "template7" = [] ∧
    scrapeDataFromHtml noTableDoc "" "" = [] :=
  ⟨by decide, (c9_totality emptyDoc "" "").2.1 (by decide), by decide, by decide,
   (c9_totality noTableDoc "" "").2.2 "template7" (by decide) (by decide)⟩

/-! ## Claim C4 -/

/-- C4 counterexample: on the §8.8 table the code takes the whole
paragraph-joined second cell as the Claim Number and splits the *third*
cell, so the emitted record is not the one the claim describes. -/
theorem c4_example_counterexample :
    (extractDataTemplate4a ex4aDoc ex4aTable "" "").map
      (fun r => (r.claimNumber, r.claimant, r.defendant, r.duration)) =
      [("CL123 | John Smith", "Jane Doe", "Not Provided", "Not Provided")] ∧
    ("CL123 | John Smith", "Jane Doe", "Not Provided", "Not Provided") ≠
      (("CL123", "John Smith", "Jane Doe", "Not Provided") :
        String × String × String × String) := by decide

/-- A second 4-cell data row used to exercise the 4-cell branch. -/
def ex4aDataRow4 : List Cell :=
  [mkPCell "10:00", mkPCell "CL900", mkPCell "Ann Lee", mkPCell "Bob Ray"]

/-- C4 amended: cell text is the `" | "`-join of non-empty paragraphs
(definition `cellText4a`); a 3-cell data row splits its third cell at the
first `" | "` into claimant/defendant with empty parts becoming
"Not Provided", a 4-cell data row takes claimant/defendant directly from
cells 2 and 3 (pipe-stripped), and in both cases the Claim Number is the
raw text of cell 1 — so the §8.8 table yields one record with Claim
Number "CL123 | John Smith", Claimant "Jane Doe", Defendant
"Not Provided" and Duration "Not Provided". -/
theorem c4_combined_layout_rows :
    (∀ (tn cd : String) (h : Headers4a) (acc : List CaseRecord) (row : List Cell)
       (c0 c1 c2 : String),
      row.map cellText4a = [c0, c1, c2] →
      (row.map cellText4a).any (fun t =>
        containsSeq (normalizeText t) [pS "claim", pS "number claimant"]) = false →
      h.nonEmpty = true →
      (row.map cellText4a).all (fun t => t == "") = false →
      ((splitAtFirstPipe (jsOr c2 "")).1 == phoenixStr) = false →
      processRow4a tn cd (h, acc) row =
        (h, acc ++ [{
          courtName := courtFromTitle tn,
          courtDate := jsOr (formatCourtDateT4 cd) "",
          claimNumber := jsOr (jsOr c1 "") "",
          claimant := jsOr (if (splitAtFirstPipe (jsOr c2 "")).1 == ""
            then "Not Provided" else (splitAtFirstPipe (jsOr c2 "")).1) "",
          defendant := jsOr (if (splitAtFirstPipe (jsOr c2 "")).2 == ""
            then "Not Provided" else (splitAtFirstPipe (jsOr c2 "")).2) "",
          duration := "Not Provided",
          hearingType := "Not Provided",
          hearingChannel := "Not Provided",
          title := tn }])) ∧
    (∀ (tn cd : String) (h : Headers4a) (acc : List CaseRecord) (row : List Cell)
       (c0 c1 c2 c3 : String),
      row.map cellText4a = [c0, c1, c2, c3] →
      (row.map cellText4a).any (fun t =>
        containsSeq (normalizeText t) [pS "claim", pS "number claimant"]) = false →
      h.nonEmpty = true →
      (row.map cellText4a).all (fun t => t == "") = false →
      processRow4a tn cd (h, acc) row =
        (h, acc ++ [{
          courtName := courtFromTitle tn,
          courtDate := jsOr (formatCourtDateT4 cd) "",
          claimNumber := jsOr (jsOr c1 "") "",
          claimant := jsOr (stripPipesStr (jsOr c2 "Not Provided")) "",
          defendant := jsOr (stripPipesStr (jsOr c3 "Not Provided")) "",
          duration := "Not Provided",
          hearingType := "Not Provided",
          hearingChannel := "Not Provided",
          title := tn }])) ∧
    extractDataTemplate4a ex4aDoc ex4aTable "" "" =
      [{ courtName := "", courtDate := "", claimNumber := "CL123 | John Smith",
         claimant := "Jane Doe", defendant := "Not Provided",
         duration := "Not Provided", hearingType := "Not Provided",
         hearingChannel := "Not Provided", title := "" }] := by
  refine ⟨?_, ?_, by decide⟩
  · intro tn cd h acc row c0 c1 c2 hmap hhdr hne hempty hph
    rw [hmap] at hhdr hempty
    unfold processRow4a
    simp only []
    rw [hmap]
    simp [hhdr, hne, hempty, hph, dataRec4a, parties4a, getCell]
  · intro tn cd h acc row c0 c1 c2 c3 hmap hhdr hne hempty
    rw [hmap] at hhdr hempty
    unfold processRow4a
    simp only []
    rw [hmap]
    simp [hhdr, hne, hempty, dataRec4a, parties4a, getCell]

theorem c4_combined_layout_rows_witness :
    processRow4a "" "" (⟨some 1, some 2, some 0, some 2⟩, []) ex4aDataRow =
      (⟨some 1, some 2, some 0, some 2⟩,
       [{ courtName := "", courtDate := "", claimNumber := "CL123 | John Smith",
          claimant := "Jane Doe", defendant := "Not Provided",
          duration := "Not Provided", hearingType := "Not Provided",
          hearingChannel := "Not Provided", title := "" }]) ∧
    processRow4a "" "" (⟨some 1, some 2, some 0, some 2⟩, []) ex4aDataRow4 =
      (⟨some 1, some 2, some 0, some 2⟩,
       [{ courtName := "", courtDate := "", claimNumber := "CL900",
          claimant := "Ann Lee", defendant := "Bob Ray",
          duration := "Not Provided", hearingType := "Not Provided",
          hearingChannel := "Not Provided", title := "" }]) := by
  constructor
  · rw [c4_combined_layout_rows.1 "" "" ⟨some 1, some 2, some 0, some 2⟩ []
      ex4aDataRow "09:00" "CL123 | John Smith" "Jane Doe" (by decide) (by decide)
      (by decide) (by decide) (by decide)]
    decide
  · rw [c4_combined_layout_rows.2.1 "" "" ⟨some 1, some 2, some 0, some 2⟩ []
      ex4aDataRow4 "10:00" "CL900" "Ann Lee" "Bob Ray" (by decide) (by decide)
      (by decide) (by decide)]
    decide

/-! ## Claim C2 -/

/-- C2: one `scrapeDataFromHtml` call keeps records in production order
(the result is a sublist of the extracted rows), and for every claim
number occurring among the extracted rows the result holds exactly one
record with that claim number — the first one produced. -/
theorem c2_dedup_first_wins (doc : Doc) (cn cd : String) :
    List.Sublist (scrapeDataFromHtml doc cn cd) (extractedRows doc cn cd) ∧
    (∀ c : String, c ∈ (extractedRows doc cn cd).map (fun r => r.claimNumber) →
      (scrapeDataFromHtml doc cn cd).filter (fun r => r.claimNumber == c) =
        ((extractedRows doc cn cd).filter (fun r => r.claimNumber == c)).take 1 ∧
      ((scrapeDataFromHtml doc cn cd).filter
        (fun r => r.claimNumber == c)).length = 1) := by
  have key : scrapeDataFromHtml doc cn cd = dedupGo (extractedRows doc cn cd) [] := by
    unfold scrapeDataFromHtml extractedRows
    cases hid : identifyTemplate doc with
    | none => simp [dedupGo]
    | some t =>
      simp only []
      by_cases hemp : (locateTables doc t).isEmpty
      · simp [hemp, dedupGo]
      · simp only [hemp, if_neg, Bool.false_eq_true, if_false]
        rw [foldl_tables_dedup, foldl_dedupStep]
        simp
  refine ⟨?_, ?_⟩
  · rw [key]
    exact dedupGo_sublist _ []
  · intro c hc
    obtain ⟨r, hr, hrc⟩ := List.mem_map.1 hc
    have hfil : (scrapeDataFromHtml doc cn cd).filter (fun r => r.claimNumber == c) =
        ((extractedRows doc cn cd).filter (fun r => r.claimNumber == c)).take 1 := by
      rw [key, dedupGo_filter]
      simp
    refine ⟨hfil, ?_⟩
    rw [hfil]
    have hmem : r ∈ (extractedRows doc cn cd).filter (fun r => r.claimNumber == c) :=
      List.mem_filter.2 ⟨hr, by simp [hrc]⟩
    cases hfe : (extractedRows doc cn cd).filter (fun r => r.claimNumber == c) with
    | nil =>
      rw [hfe] at hmem
      exact absurd hmem (List.not_mem_nil r)
    | cons a t => rfl

/-- A second data row with the same claim number, to exercise
first-wins deduplication. -/
def dup5DataRow : List Cell :=
  [mkCell "2", mkCell "10:00", mkCell "AM", mkCell "45 mins",
   mkCell "CASE1 Brown v Green", mkCell "Possession Order", mkCell "Phone"]

def dup5Table : HtmlTable :=
  ⟨"Start Time Duration Case Details Hearing Type Hearing Channel CASE1 Possession",
   [w5HeaderRow, w5DataRow, dup5DataRow]⟩

def dup5Doc : Doc :=
  ⟨"", "Start Time Duration Case Details Hearing Type Hearing Channel", [dup5Table]⟩

theorem c2_dedup_first_wins_witness :
    (extractedRows dup5Doc "" "").length = 2 ∧
    "CASE1" ∈ (extractedRows dup5Doc "" "").map (fun r => r.claimNumber) ∧
    ((scrapeDataFromHtml dup5Doc "" "").filter
      (fun r => r.claimNumber == "CASE1")).length = 1 ∧
    (scrapeDataFromHtml dup5Doc "" "").filter (fun r => r.claimNumber == "CASE1") =
      ((extractedRows dup5Doc "" "").filter
        (fun r => r.claimNumber == "CASE1")).take 1 :=
  ⟨by decide, by decide,
   ((c2_dedup_first_wins dup5Doc "" "").2 "CASE1" (by decide)).2,
   ((c2_dedup_first_wins dup5Doc "" "").2 "CASE1" (by decide)).1⟩
